import Mathlib

/-!
Verification of the speech-coach analyzer core against its specification.

The Python analyzers in `backend/app/analyzers` and the aggregation layer in
`backend/app/models.py` are shallowly embedded here.  Real-valued quantities
are modelled over `ℚ` (exact arithmetic standing in for floats).  Library
calls that the analyzers make (OpenCV decoding, MediaPipe detection, librosa
feature extraction, numpy `std`, scipy peak finding, speech-to-text) are
collaborators: their outputs appear as explicit inputs to the embedded
functions, while every piece of arithmetic and control flow written in the
repository itself is translated directly.  Natural-language feedback strings
are abstracted into the tagged enumeration `Msg`, one tag per distinct
message literal of the source (f-string numeric interpolation dropped).
-/

namespace SpeechCoach

/-- Arithmetic mean of a rational list, `np.mean`; division by zero for the
empty list yields `0` in `ℚ` (the analyzers guard emptiness before use). -/
def mean (l : List ℚ) : ℚ := l.sum / l.length

/-- `np.max` over a nonempty list (defaults to `0` on `[]`, unused there). -/
def listMax : List ℚ → ℚ
  | [] => 0
  | x :: xs => xs.foldl max x

/-- `np.min` over a nonempty list (defaults to `0` on `[]`, unused there). -/
def listMin : List ℚ → ℚ
  | [] => 0
  | x :: xs => xs.foldl min x

/-- Round a rational to the nearest integer, ties to even — the rounding
Python's `round` applies. -/
def roundHalfEven (q : ℚ) : ℤ :=
  let f := ⌊q⌋
  let r := q - f
  if r < 1 / 2 then f
  else if 1 / 2 < r then f + 1
  else if f % 2 = 0 then f else f + 1

/-- Python `round(x, 2)`. -/
def pyRound2 (q : ℚ) : ℚ := (roundHalfEven (q * 100) : ℚ) / 100

/-- Python `int()` applied to a rational: truncation toward zero. -/
def pytrunc (q : ℚ) : ℤ := if 0 ≤ q then ⌊q⌋ else -⌊-q⌋

/-- One tag per feedback message literal of the source; the `failed` tags
carry the interpolated exception text. -/
inductive Msg where
  | posture_alignment | posture_straightness | posture_stability
  | posture_openness | posture_success
  | eye_no_face | eye_very_low | eye_aim | eye_shifts | eye_brief | eye_success
  | voice_volume_varies | voice_enunciate | voice_unstable | voice_low_volume
  | voice_success
  | voice_failed (e : String)
  | intonation_monotone | intonation_pitch_var | intonation_energy
  | intonation_stress | intonation_prosody | intonation_success
  | intonation_no_pitch
  | intonation_failed (e : String)
  | speech_stutter | speech_fillers_many | speech_fillers_some
  | speech_disfluency | speech_fast | speech_slow | speech_success
  | speech_failed (e : String)
  | agg_alignment | agg_stability | agg_eye | agg_shifts | agg_volume
  | agg_clarity | agg_disfluency | agg_fillers | agg_monotone | agg_prosody
  | agg_success
  deriving DecidableEq

/-- `app/models.py` `PostureMetrics`. -/
structure PostureMetrics where
  average_shoulder_alignment : ℚ
  average_back_straightness : ℚ
  stability_score : ℚ
  confidence_score : ℚ
  feedback : List Msg
  deriving DecidableEq

/-- `app/models.py` `EyeContactMetrics`. -/
structure EyeContactMetrics where
  eye_contact_percentage : ℚ
  average_eye_contact_duration : ℚ
  gaze_shifts_per_minute : ℚ
  direct_eye_contact_score : ℚ
  feedback : List Msg
  deriving DecidableEq

/-- `app/models.py` `VoiceQualityMetrics`. -/
structure VoiceQualityMetrics where
  average_volume : ℚ
  volume_consistency : ℚ
  clarity_score : ℚ
  pitch_range : ℚ
  average_pitch : ℚ
  voice_stability : ℚ
  feedback : List Msg
  deriving DecidableEq

/-- `app/models.py` `SpeechDisfluencyMetrics`. -/
structure SpeechDisfluencyMetrics where
  stutter_count : ℕ
  filler_word_count : ℕ
  pause_count : ℕ
  total_disfluencies : ℕ
  disfluency_rate : ℚ
  speech_rate : ℚ
  feedback : List Msg
  deriving DecidableEq

/-- `app/models.py` `IntonationMetrics`. -/
structure IntonationMetrics where
  pitch_variation : ℚ
  stress_pattern_score : ℚ
  monotone_score : ℚ
  energy_variation : ℚ
  prosody_score : ℚ
  feedback : List Msg
  deriving DecidableEq

/-! ## SpeechAnalyzer (`app/analyzers/voice/speech_analyzer.py`) -/

/-- Python `str.lower()` (character-wise, as the analyzers only meet ASCII
transcripts). -/
def pyLower (l : List Char) : List Char := l.map Char.toLower

/-- Python `str.count(pat)` helper: after a match, resume `pat.length`
characters further (non-overlapping matches), i.e. skip `skip` characters
before looking for the next match. -/
def pyCountGo (p : List Char) : List Char → ℕ → ℕ
  | [], _ => 0
  | _ :: rest, skip + 1 => pyCountGo p rest skip
  | c :: rest, 0 =>
    if p.isPrefixOf (c :: rest) then 1 + pyCountGo p rest (p.length - 1)
    else pyCountGo p rest 0

/-- Python `s.count(p)` on character lists (for the empty pattern Python
returns `len(s) + 1`). -/
def pyCount (p s : List Char) : ℕ :=
  if p = [] then s.length + 1 else pyCountGo p s 0

/-- Python `str.split()` with no argument, on character lists: split on
whitespace runs, discarding empty tokens (`acc` holds the reversed current
token). -/
def pySplitGo : List Char → List Char → List (List Char)
  | [], acc => if acc = [] then [] else [acc.reverse]
  | c :: rest, acc =>
    if c.isWhitespace then
      (if acc = [] then pySplitGo rest [] else acc.reverse :: pySplitGo rest [])
    else pySplitGo rest (c :: acc)

/-- Python `str.split()` with no argument. -/
def pySplit (s : List Char) : List (List Char) := pySplitGo s []

/-- `SpeechAnalyzer.filler_words`. -/
def filler_words : List (List Char) :=
  ["um".data, "uh".data, "er".data, "ah".data, "like".data, "you know".data,
   "so".data, "well".data, "actually".data, "basically".data]

/-- `SpeechAnalyzer.detect_filler_words`: lower-case the transcript, sum the
substring count of every lexicon entry. -/
def detect_filler_words (text : List Char) : ℕ :=
  (filler_words.map (fun f => pyCount f (pyLower text))).sum

/-- The `while` loop of `SpeechAnalyzer.detect_stutters` at position `i`
over the token list `ws`. -/
def stutter_loop (ws : List (List Char)) (i : ℕ) : ℕ :=
  if h : i < ws.length - 1 then
    if ws[i]! = ws[i + 1]! ∧ 2 < (ws[i]!).length then
      1 + stutter_loop ws (i + 2)
    else if i < ws.length - 2 ∧ ws[i]! = ws[i + 2]! ∧ (ws[i]!).length ≤ 3 then
      1 + stutter_loop ws (i + 3)
    else
      stutter_loop ws (i + 1)
  else 0
  termination_by ws.length - i
  decreasing_by all_goals omega

/-- `SpeechAnalyzer.detect_stutters`. -/
def detect_stutters (text : List Char) : ℕ :=
  stutter_loop (pySplit (pyLower text)) 0

/-- `SpeechAnalyzer.calculate_speech_rate`. -/
def calculate_speech_rate (text : List Char) (duration_seconds : ℚ) : ℚ :=
  let word_count := (pySplit text).length
  if 0 < duration_seconds then (word_count : ℚ) / duration_seconds * 60 else 0

/-- Collaborator inputs of `SpeechAnalyzer.analyze`: the loaded waveform
length and sample rate (librosa), the transcript (`transcribe_audio`, empty
on recognition failure), and the pause count (`detect_pauses`, internally
total). -/
structure SpeechRaw where
  y_len : ℕ
  sr : ℚ
  transcript : List Char
  pause_count : ℕ
  deriving DecidableEq

/-- `SpeechAnalyzer.analyze`; an `Except.error` input models an exception
raised inside the `try` block, handled by the all-zero fallback. -/
def speech_analyze (inp : Except String SpeechRaw) : SpeechDisfluencyMetrics :=
  match inp with
  | .error e =>
    { stutter_count := 0, filler_word_count := 0, pause_count := 0,
      total_disfluencies := 0, disfluency_rate := 0, speech_rate := 0,
      feedback := [Msg.speech_failed e] }
  | .ok r =>
    let duration_seconds : ℚ := if 0 < r.sr then (r.y_len : ℚ) / r.sr else 1
    let duration_minutes := duration_seconds / 60
    let filler_count := if r.transcript ≠ [] then detect_filler_words r.transcript else 0
    let stutter_count := if r.transcript ≠ [] then detect_stutters r.transcript else 0
    let total_disfluencies := filler_count + stutter_count
    let disfluency_rate : ℚ :=
      if 0 < duration_minutes then (total_disfluencies : ℚ) / duration_minutes else 0
    let speech_rate :=
      if r.transcript ≠ [] then calculate_speech_rate r.transcript duration_seconds else 0
    let fb1 : List Msg := if 0 < stutter_count then [Msg.speech_stutter] else []
    let fb2 := fb1 ++
      (if 10 < filler_count then [Msg.speech_fillers_many]
       else if 5 < filler_count then [Msg.speech_fillers_some] else [])
    let fb3 := fb2 ++ (if 5 < disfluency_rate then [Msg.speech_disfluency] else [])
    let fb4 := fb3 ++
      (if 180 < speech_rate then [Msg.speech_fast]
       else if speech_rate < 120 ∧ 0 < speech_rate then [Msg.speech_slow] else [])
    let feedback := if fb4 = [] then [Msg.speech_success] else fb4
    { stutter_count := stutter_count, filler_word_count := filler_count,
      pause_count := r.pause_count, total_disfluencies := total_disfluencies,
      disfluency_rate := disfluency_rate, speech_rate := speech_rate,
      feedback := feedback }

/-! ## PostureAnalyzer (`app/analyzers/cv/posture_analyzer.py`) -/

/-- A MediaPipe pose landmark: normalized coordinates plus visibility. -/
structure PoseLm where
  x : ℚ
  y : ℚ
  visibility : ℚ
  deriving DecidableEq

/-- The landmarks `PostureAnalyzer.analyze` reads from one pose detection
(`results.pose_landmarks`).  `nose` is fetched by the source but unused. -/
structure PoseFrame where
  left_shoulder : PoseLm
  right_shoulder : PoseLm
  left_hip : PoseLm
  right_hip : PoseLm
  nose : PoseLm
  deriving DecidableEq

/-- The visibility gate: the source skips the sample unless all four
shoulder/hip landmarks have visibility `> 0.5`. -/
def landmarks_visible (f : PoseFrame) : Bool :=
  decide (0.5 < f.left_shoulder.visibility) &&
  decide (0.5 < f.right_shoulder.visibility) &&
  decide (0.5 < f.left_hip.visibility) &&
  decide (0.5 < f.right_hip.visibility)

/-- `shoulder_alignment = 1.0 - min(shoulder_height_diff * 10, 1.0)`. -/
def shoulder_alignment_of (f : PoseFrame) : ℚ :=
  1 - min (|f.left_shoulder.y - f.right_shoulder.y| * 10) 1

/-- The piecewise `back_straightness` computation over
`vertical_alignment = |shoulder_center_y - hip_center_y|`. -/
def back_straightness_of (f : PoseFrame) : ℚ :=
  let shoulder_center_y := (f.left_shoulder.y + f.right_shoulder.y) / 2
  let hip_center_y := (f.left_hip.y + f.right_hip.y) / 2
  let vertical_alignment := |shoulder_center_y - hip_center_y|
  let expected_diff : ℚ := 0.2
  if 0.1 ≤ vertical_alignment ∧ vertical_alignment ≤ 0.3 then
    1 - |vertical_alignment - expected_diff| * 2
  else if vertical_alignment < 0.1 then
    vertical_alignment * 5
  else
    max 0 (1 - (vertical_alignment - 0.3) * 2)

/-- `current_shoulder_center = (left_shoulder.x + right_shoulder.x) / 2`. -/
def shoulder_center_of (f : PoseFrame) : ℚ :=
  (f.left_shoulder.x + f.right_shoulder.x) / 2

/-- `stability = 1.0 - min(movement * 20, 1.0)` between consecutive valid
samples. -/
def stability_of (prev cur : ℚ) : ℚ := 1 - min (|cur - prev| * 20) 1

/-- `confidence = min(shoulder_width * 3, 1.0)`. -/
def confidence_of (f : PoseFrame) : ℚ :=
  min (|f.left_shoulder.x - f.right_shoulder.x| * 3) 1

/-- The mutable state of the frame loop in `PostureAnalyzer.analyze`.
`processed` is instrumentation: the decode indices at which
`self.pose.process` is invoked (i.e. at which `frame_count % 5 == 0`
held). -/
structure PostureState where
  shoulder_alignments : List ℚ
  back_straightness_scores : List ℚ
  stability_scores : List ℚ
  confidence_scores : List ℚ
  prev_shoulder_center : Option ℚ
  frame_count : ℕ
  processed : List ℕ

/-- Initial loop state. -/
def posture_init : PostureState :=
  { shoulder_alignments := [], back_straightness_scores := [],
    stability_scores := [], confidence_scores := [],
    prev_shoulder_center := none, frame_count := 0, processed := [] }

/-- One iteration of the frame loop, given the decode index `idx` and the
pose-detection result for that frame.  Note the faithful translation of the
`continue` on an invisible sample: it bypasses `frame_count += 1`, leaving
`frame_count` unchanged. -/
def posture_step (idx : ℕ) (st : PostureState) (fr : Option PoseFrame) :
    PostureState :=
  if st.frame_count % 5 == 0 then
    let st := { st with processed := st.processed ++ [idx] }
    match fr with
    | some f =>
      if landmarks_visible f then
        { st with
          shoulder_alignments := st.shoulder_alignments ++ [shoulder_alignment_of f],
          back_straightness_scores :=
            st.back_straightness_scores ++ [back_straightness_of f],
          stability_scores := st.stability_scores ++
            (match st.prev_shoulder_center with
             | some p => [stability_of p (shoulder_center_of f)]
             | none => []),
          prev_shoulder_center := some (shoulder_center_of f),
          confidence_scores := st.confidence_scores ++ [confidence_of f],
          frame_count := st.frame_count + 1 }
      else
        st
    | none => { st with frame_count := st.frame_count + 1 }
  else
    { st with frame_count := st.frame_count + 1 }

/-- The frame loop: decoded frames in order, `idx` the decode index. -/
def posture_run : List (Option PoseFrame) → ℕ → PostureState → PostureState
  | [], _, st => st
  | fr :: rest, idx, st => posture_run rest (idx + 1) (posture_step idx st fr)

/-- `PostureAnalyzer.analyze` after a successful `cv2.VideoCapture` open:
run the loop, average each accumulator (defaulting to `0.7` when empty) and
apply the feedback rules. -/
def posture_analyze (frames : List (Option PoseFrame)) : PostureMetrics :=
  let st := posture_run frames 0 posture_init
  let avg_shoulder_alignment :=
    if st.shoulder_alignments ≠ [] then mean st.shoulder_alignments else 0.7
  let avg_back_straightness :=
    if st.back_straightness_scores ≠ [] then mean st.back_straightness_scores else 0.7
  let avg_stability :=
    if st.stability_scores ≠ [] then mean st.stability_scores else 0.7
  let avg_confidence :=
    if st.confidence_scores ≠ [] then mean st.confidence_scores else 0.7
  let fb1 : List Msg :=
    if avg_shoulder_alignment < 0.7 then [Msg.posture_alignment] else []
  let fb2 := fb1 ++
    (if avg_back_straightness < 0.7 then [Msg.posture_straightness] else [])
  let fb3 := fb2 ++ (if avg_stability < 0.6 then [Msg.posture_stability] else [])
  let fb4 := fb3 ++ (if avg_confidence < 0.6 then [Msg.posture_openness] else [])
  let feedback := if fb4 = [] then [Msg.posture_success] else fb4
  { average_shoulder_alignment := avg_shoulder_alignment,
    average_back_straightness := avg_back_straightness,
    stability_score := avg_stability,
    confidence_score := avg_confidence,
    feedback := feedback }

/-- The subsequence of pose samples the loop actually measures, starting
from frame counter `fc`: sampled (`fc % 5 == 0`), detected, and visible.
Mirrors the loop's frame-counter updates, including the skipped increment
after an invisible sample. -/
def valid_samples : List (Option PoseFrame) → ℕ → List PoseFrame
  | [], _ => []
  | fr :: rest, fc =>
    if fc % 5 == 0 then
      match fr with
      | some f =>
        if landmarks_visible f then f :: valid_samples rest (fc + 1)
        else valid_samples rest fc
      | none => valid_samples rest (fc + 1)
    else valid_samples rest (fc + 1)

/-- The stability samples produced from a run of valid samples, given the
previous shoulder center (if any). -/
def stab_chain : Option ℚ → List PoseFrame → List ℚ
  | _, [] => []
  | none, f :: rest => stab_chain (some (shoulder_center_of f)) rest
  | some p, f :: rest =>
    stability_of p (shoulder_center_of f) ::
      stab_chain (some (shoulder_center_of f)) rest

/-! ## EyeContactAnalyzer (`app/analyzers/cv/eye_contact_analyzer.py`) -/

/-- A MediaPipe face-mesh landmark. -/
structure FaceLm where
  x : ℚ
  y : ℚ
  visibility : ℚ
  deriving DecidableEq

/-- The scalars `EyeContactAnalyzer` reads from one detected face, named by
the mesh indices the source fetches.  `iris = none` models the
`IndexError`/`AttributeError` path when the iris landmarks are missing. -/
structure FaceSample where
  left_eye_left_x : ℚ
  left_eye_right_x : ℚ
  left_eye_top_y : ℚ
  left_eye_bottom_y : ℚ
  right_eye_left_x : ℚ
  right_eye_right_x : ℚ
  right_eye_top_y : ℚ
  right_eye_bottom_y : ℚ
  iris : Option (FaceLm × FaceLm)
  nose_x : ℚ
  face_left_x : ℚ
  face_right_x : ℚ
  deriving DecidableEq

/-- `EyeContactAnalyzer.estimate_gaze_direction`: mean of the two
iris-minus-eye-center offsets. -/
def estimate_gaze_direction (s : FaceSample) (li ri : FaceLm) : ℚ × ℚ :=
  let left_eye_center_x := (s.left_eye_left_x + s.left_eye_right_x) / 2
  let left_eye_center_y := (s.left_eye_top_y + s.left_eye_bottom_y) / 2
  let right_eye_center_x := (s.right_eye_left_x + s.right_eye_right_x) / 2
  let right_eye_center_y := (s.right_eye_top_y + s.right_eye_bottom_y) / 2
  let left_gaze_x := li.x - left_eye_center_x
  let left_gaze_y := li.y - left_eye_center_y
  let right_gaze_x := ri.x - right_eye_center_x
  let right_gaze_y := ri.y - right_eye_center_y
  ((left_gaze_x + right_gaze_x) / 2, (left_gaze_y + right_gaze_y) / 2)

/-- `EyeContactAnalyzer.is_looking_at_camera` (the source declares a default
threshold of `0.05` but `analyze` always passes `0.03`). -/
def is_looking_at_camera (gaze_x gaze_y threshold : ℚ) : Bool :=
  decide (|gaze_x| < threshold) && decide (|gaze_y| < threshold)

/-- The per-sample `is_looking` decision inside `analyze`: iris validity
gate, gaze estimate against the `0.03` threshold, head orientation. -/
def sample_is_looking (s : FaceSample) : Bool :=
  match s.iris with
  | none => false
  | some (li, ri) =>
    if decide (0.5 < li.visibility) && decide (0.5 < ri.visibility) &&
        decide (0 < li.x) && decide (li.x < 1) &&
        decide (0 < ri.x) && decide (ri.x < 1) then
      let g := estimate_gaze_direction s li ri
      let face_center_x := (s.face_left_x + s.face_right_x) / 2
      is_looking_at_camera g.1 g.2 0.03 &&
        decide (|s.nose_x - face_center_x| < 0.15)
    else false

/-- The mutable state of the frame loop in `EyeContactAnalyzer.analyze`. -/
structure EyeState where
  eye_contact_frames : ℕ
  total_frames : ℕ
  eye_contact_durations : List ℚ
  current_duration : ℕ
  gaze_shifts : ℕ
  prev_looking : Option Bool
  frame_count : ℕ

/-- Initial loop state. -/
def eye_init : EyeState :=
  { eye_contact_frames := 0, total_frames := 0, eye_contact_durations := [],
    current_duration := 0, gaze_shifts := 0, prev_looking := none,
    frame_count := 0 }

/-- One iteration of the eye-contact frame loop.  A frame is sampled when
`frame_count % frame_interval == 0`; only frames with a detected face bump
`total_frames`. -/
def eye_step (fps : ℚ) (frame_interval : ℕ) (st : EyeState)
    (fr : Option FaceSample) : EyeState :=
  if st.frame_count % frame_interval == 0 then
    match fr with
    | some s =>
      let st1 := { st with total_frames := st.total_frames + 1 }
      let is_looking := sample_is_looking s
      let st2 :=
        if is_looking then
          { st1 with eye_contact_frames := st1.eye_contact_frames + 1,
                     current_duration := st1.current_duration + 1 }
        else if 0 < st1.current_duration then
          { st1 with eye_contact_durations := st1.eye_contact_durations ++
              [(st1.current_duration : ℚ) / (fps / (frame_interval : ℚ))],
                     current_duration := 0 }
        else st1
      let st3 :=
        if (match st2.prev_looking with
            | some p => p ≠ is_looking
            | none => false : Bool) then
          { st2 with gaze_shifts := st2.gaze_shifts + 1 }
        else st2
      { st3 with prev_looking := some is_looking,
                 frame_count := st3.frame_count + 1 }
    | none =>
      let st2 :=
        if st.prev_looking = some true then
          { st with gaze_shifts := st.gaze_shifts + 1 }
        else st
      { st2 with prev_looking := some false,
                 frame_count := st2.frame_count + 1 }
  else
    { st with frame_count := st.frame_count + 1 }

/-- The frame loop over the decoded frames. -/
def eye_run (fps : ℚ) (frame_interval : ℕ) :
    List (Option FaceSample) → EyeState → EyeState
  | [], st => st
  | fr :: rest, st => eye_run fps frame_interval rest (eye_step fps frame_interval st fr)

/-- `fps = cap.get(cv2.CAP_PROP_FPS) or 30`: Python's `or` replaces a zero
reading by `30`. -/
def eye_fps (fps_raw : ℚ) : ℚ := if fps_raw = 0 then 30 else fps_raw

/-- `frame_interval = max(1, int(fps / 10))`. -/
def eye_interval (fps : ℚ) : ℕ := max 1 (pytrunc (fps / 10)).toNat

/-- The loop state after the frame loop and the final still-looking
duration flush of `EyeContactAnalyzer.analyze`. -/
def eye_state_after (fps_raw : ℚ) (frames : List (Option FaceSample)) :
    EyeState :=
  let fps := eye_fps fps_raw
  let frame_interval := eye_interval fps
  let st0 := eye_run fps frame_interval frames eye_init
  if 0 < st0.current_duration then
    { st0 with eye_contact_durations := st0.eye_contact_durations ++
        [(st0.current_duration : ℚ) / (fps / (frame_interval : ℚ))] }
  else st0

/-- `EyeContactAnalyzer.analyze` after a successful media open.  `fps_raw`
is `cap.get(cv2.CAP_PROP_FPS)`. -/
def eye_contact_analyze (fps_raw : ℚ) (frames : List (Option FaceSample)) :
    EyeContactMetrics :=
  let fps := eye_fps fps_raw
  let st := eye_state_after fps_raw frames
  let eye_contact_percentage : ℚ :=
    if 0 < st.total_frames then
      (st.eye_contact_frames : ℚ) / (st.total_frames : ℚ) * 100
    else 0
  let avg_eye_contact_duration :=
    if st.eye_contact_durations ≠ [] then mean st.eye_contact_durations else 0
  let duration_seconds : ℚ := if 0 < fps then (st.frame_count : ℚ) / fps else 1
  let duration_minutes := duration_seconds / 60
  let gaze_shifts_per_min : ℚ :=
    if 0 < duration_minutes then (st.gaze_shifts : ℚ) / duration_minutes else 0
  let direct_eye_contact_score := min (eye_contact_percentage / 100) 1
  let fb1 : List Msg :=
    if st.total_frames = 0 then [Msg.eye_no_face]
    else if eye_contact_percentage < 40 then [Msg.eye_very_low]
    else if eye_contact_percentage < 60 then [Msg.eye_aim]
    else []
  let fb2 := fb1 ++ (if 20 < gaze_shifts_per_min then [Msg.eye_shifts] else [])
  let fb3 := fb2 ++
    (if avg_eye_contact_duration < 2 ∧ st.eye_contact_durations ≠ [] then
      [Msg.eye_brief] else [])
  let feedback :=
    if fb3 = [] ∧ 0 < eye_contact_percentage then fb3 ++ [Msg.eye_success]
    else fb3
  { eye_contact_percentage := eye_contact_percentage,
    average_eye_contact_duration := avg_eye_contact_duration,
    gaze_shifts_per_minute := gaze_shifts_per_min,
    direct_eye_contact_score := direct_eye_contact_score,
    feedback := feedback }

/-! ## VoiceAnalyzer (`app/analyzers/voice/voice_analyzer.py`) -/

/-- Collaborator outputs consumed by `VoiceAnalyzer.analyze`: the loaded
waveform length, the frame-wise features from librosa, the numpy standard
deviations (`rms_db_std = np.std(rms_db)`, `pitch_std = np.std` of the
band-filtered pitch list). -/
structure VoiceFeatures where
  y_len : ℕ
  rms_db : List ℚ
  rms_db_std : ℚ
  raw_pitches : List ℚ
  pitch_std : ℚ
  spectral_centroids : List ℚ
  zcr : List ℚ
  deriving DecidableEq

/-- The numeric part of the record built inside the `try` block. -/
structure VoiceCore where
  average_volume : ℚ
  volume_consistency : ℚ
  clarity_score : ℚ
  pitch_range : ℚ
  average_pitch : ℚ
  voice_stability : ℚ
  feedback : List Msg

/-- The body of the `try` block of `VoiceAnalyzer.analyze`: an
`Except.error` input models a raised exception in a collaborator call, the
explicit `raise` fires on an empty waveform. -/
def voice_body (inp : Except String VoiceFeatures) : Except String VoiceCore :=
  match inp with
  | .error e => .error e
  | .ok f =>
  if f.y_len = 0 then .error ("Audio file is empty") else
  let avg_volume := mean f.rms_db
  let volume_consistency := 1 / (1 + f.rms_db_std / 10)
  let pitch_values := f.raw_pitches.filter
    (fun pitch => decide (0 < pitch) && decide (50 ≤ pitch) && decide (pitch ≤ 500))
  let avg_pitch := if pitch_values ≠ [] then mean pitch_values else 150
  let pitch_range :=
    if pitch_values ≠ [] then listMax pitch_values - listMin pitch_values else 50
  let voice_stability :=
    if 1 < pitch_values.length then 1 / (1 + f.pitch_std / 20) else 0.7
  let avg_spectral_centroid := mean f.spectral_centroids
  let avg_zcr := mean f.zcr
  let clarity_score :=
    min 1 ((avg_spectral_centroid / 3000) * (1 - min avg_zcr 0.1 * 5))
  let fb1 : List Msg :=
    if volume_consistency < 0.7 then [Msg.voice_volume_varies] else []
  let fb2 := fb1 ++ (if clarity_score < 0.7 then [Msg.voice_enunciate] else [])
  let fb3 := fb2 ++ (if voice_stability < 0.6 then [Msg.voice_unstable] else [])
  let fb4 := fb3 ++ (if avg_volume < -30 then [Msg.voice_low_volume] else [])
  let feedback := if fb4 = [] then [Msg.voice_success] else fb4
  .ok { average_volume := avg_volume, volume_consistency := volume_consistency,
        clarity_score := clarity_score, pitch_range := pitch_range,
        average_pitch := avg_pitch, voice_stability := voice_stability,
        feedback := feedback }

/-- `VoiceAnalyzer.analyze`: the `except` handler turns any failure into the
fixed fallback record. -/
def voice_analyze (inp : Except String VoiceFeatures) : VoiceQualityMetrics :=
  match voice_body inp with
  | .ok c =>
    { average_volume := c.average_volume,
      volume_consistency := c.volume_consistency,
      clarity_score := c.clarity_score, pitch_range := c.pitch_range,
      average_pitch := c.average_pitch, voice_stability := c.voice_stability,
      feedback := c.feedback }
  | .error e =>
    { average_volume := -20, volume_consistency := 0.7, clarity_score := 0.7,
      pitch_range := 50, average_pitch := 150, voice_stability := 0.7,
      feedback := [Msg.voice_failed e] }

/-! ## IntonationAnalyzer (`app/analyzers/voice/intonation_analyzer.py`) -/

/-- Collaborator outputs consumed by `IntonationAnalyzer.analyze`:
`pitch_std = np.std` of the positive-pitch list, `rms_std = np.std(rms)`,
`peak_count = len(find_peaks(savgol_filter(rms), height=mean)[0])`. -/
structure IntonationFeatures where
  y_len : ℕ
  raw_pitches : List ℚ
  pitch_std : ℚ
  rms : List ℚ
  rms_std : ℚ
  peak_count : ℕ
  deriving DecidableEq

/-- `IntonationAnalyzer.analyze`; `Except.error` models an exception inside
the `try` block (handled by the `except` fallback), while the empty
positive-pitch list takes the early-`return` fallback. -/
def intonation_analyze (inp : Except String IntonationFeatures) :
    IntonationMetrics :=
  match inp with
  | .error e =>
    { pitch_variation := 0.3, stress_pattern_score := 0.5,
      monotone_score := 0.7, energy_variation := 0.4, prosody_score := 0.5,
      feedback := [Msg.intonation_failed e] }
  | .ok f =>
    if f.y_len = 0 then
      { pitch_variation := 0.3, stress_pattern_score := 0.5,
        monotone_score := 0.7, energy_variation := 0.4, prosody_score := 0.5,
        feedback := [Msg.intonation_failed ("Audio file is empty")] }
    else
      let pitch_values := f.raw_pitches.filter (fun pitch => decide (0 < pitch))
      if pitch_values = [] then
        { pitch_variation := 0.3, stress_pattern_score := 0.5,
          monotone_score := 0.7, energy_variation := 0.4, prosody_score := 0.5,
          feedback := [Msg.intonation_no_pitch] }
      else
        let pitch_variation :=
          if 0 < mean pitch_values then
            min 1 (f.pitch_std / mean pitch_values * 2)
          else 0.3
        let monotone_score := 1 - pitch_variation
        let energy_variation :=
          if 1 < f.rms.length then
            min 1 (f.rms_std / (mean f.rms + 1 / 10000000000) * 3)
          else 0.4
        let stress_pattern_score :=
          if 0 < f.rms.length then
            min 1 ((f.peak_count : ℚ) / (f.rms.length : ℚ) * 10)
          else 0.5
        let prosody_score :=
          pitch_variation * 0.4 + energy_variation * 0.3 +
            stress_pattern_score * 0.3
        let fb1 : List Msg :=
          if 0.6 < monotone_score then [Msg.intonation_monotone] else []
        let fb2 := fb1 ++
          (if pitch_variation < 0.3 then [Msg.intonation_pitch_var] else [])
        let fb3 := fb2 ++
          (if energy_variation < 0.3 then [Msg.intonation_energy] else [])
        let fb4 := fb3 ++
          (if stress_pattern_score < 0.5 then [Msg.intonation_stress] else [])
        let fb5 := fb4 ++
          (if prosody_score < 0.5 then [Msg.intonation_prosody] else [])
        let feedback := if fb5 = [] then [Msg.intonation_success] else fb5
        { pitch_variation := pitch_variation,
          stress_pattern_score := stress_pattern_score,
          monotone_score := monotone_score,
          energy_variation := energy_variation,
          prosody_score := prosody_score, feedback := feedback }

/-! ## MetricAggregator (`app/models.py`, class `AnalysisMetrics`) -/

/-- `app/models.py` `AnalysisMetrics`: the five metric records. -/
structure AnalysisMetrics where
  posture : PostureMetrics
  eye_contact : EyeContactMetrics
  voice_quality : VoiceQualityMetrics
  speech_disfluencies : SpeechDisfluencyMetrics
  intonation : IntonationMetrics
  deriving DecidableEq

/-- `AnalysisMetrics.calculate_overall_score`. -/
def calculate_overall_score (m : AnalysisMetrics) : ℚ :=
  let posture_score :=
    (m.posture.average_shoulder_alignment * 0.3 +
     m.posture.average_back_straightness * 0.3 +
     m.posture.stability_score * 0.2 +
     m.posture.confidence_score * 0.2) * 100
  let eye_contact_score :=
    (m.eye_contact.eye_contact_percentage / 100 * 0.6 +
     m.eye_contact.direct_eye_contact_score * 0.4) * 100
  let voice_score :=
    (m.voice_quality.clarity_score * 0.3 +
     m.voice_quality.volume_consistency * 0.3 +
     m.voice_quality.voice_stability * 0.4) * 100
  let disfluency_score :=
    max 0 (100 - m.speech_disfluencies.disfluency_rate * 10)
  let intonation_score :=
    ((1 - m.intonation.monotone_score) * 0.4 +
     m.intonation.prosody_score * 0.6) * 100
  let overall :=
    posture_score * 0.15 + eye_contact_score * 0.20 + voice_score * 0.20 +
      disfluency_score * 0.20 + intonation_score * 0.25
  pyRound2 overall

/-- The ten threshold rules of `AnalysisMetrics.generate_feedback`, applied
in source order. -/
def agg_rules (m : AnalysisMetrics) : List Msg :=
  (if m.posture.average_shoulder_alignment < 0.7 then [Msg.agg_alignment] else []) ++
  (if m.posture.stability_score < 0.6 then [Msg.agg_stability] else []) ++
  (if m.eye_contact.eye_contact_percentage < 60 then [Msg.agg_eye] else []) ++
  (if 20 < m.eye_contact.gaze_shifts_per_minute then [Msg.agg_shifts] else []) ++
  (if m.voice_quality.volume_consistency < 0.7 then [Msg.agg_volume] else []) ++
  (if m.voice_quality.clarity_score < 0.7 then [Msg.agg_clarity] else []) ++
  (if 5 < m.speech_disfluencies.disfluency_rate then [Msg.agg_disfluency] else []) ++
  (if 10 < m.speech_disfluencies.filler_word_count then [Msg.agg_fillers] else []) ++
  (if 0.6 < m.intonation.monotone_score then [Msg.agg_monotone] else []) ++
  (if m.intonation.prosody_score < 0.6 then [Msg.agg_prosody] else [])

/-- `AnalysisMetrics.generate_feedback`: the ten threshold rules, then the
universal success message when none fired. -/
def generate_feedback (m : AnalysisMetrics) : List Msg :=
  if agg_rules m = [] then [Msg.agg_success] else agg_rules m

/-! ## Concrete inputs used as test vectors -/

/-- A pose detection whose four gating landmarks are fully visible. -/
def pose_visible : PoseFrame :=
  { left_shoulder := { x := 0.3, y := 0.5, visibility := 1 },
    right_shoulder := { x := 0.7, y := 0.5, visibility := 1 },
    left_hip := { x := 0.3, y := 0.7, visibility := 1 },
    right_hip := { x := 0.7, y := 0.7, visibility := 1 },
    nose := { x := 0.5, y := 0.1, visibility := 1 } }

/-- A pose detection whose left shoulder fails the visibility gate. -/
def pose_hidden : PoseFrame :=
  { left_shoulder := { x := 0.3, y := 0.5, visibility := 0 },
    right_shoulder := { x := 0.7, y := 0.5, visibility := 1 },
    left_hip := { x := 0.3, y := 0.7, visibility := 1 },
    right_hip := { x := 0.7, y := 0.7, visibility := 1 },
    nose := { x := 0.5, y := 0.1, visibility := 1 } }

/-- Decoded-frame sequence exposing the sampling-stride slip: the sample at
decode index 5 fails the visibility gate, so `frame_count` is not advanced
and decode index 6 is processed as well. -/
def stride_frames : List (Option PoseFrame) :=
  [some pose_visible, none, none, none, none, some pose_hidden,
   some pose_visible]

/-- A single-valid-sample video. -/
def single_sample_frames : List (Option PoseFrame) := [some pose_visible]

/-- Voice features of a nonempty clip with no usable frames: every list
empty, both standard deviations zero. -/
def voice_features_trivial : VoiceFeatures :=
  { y_len := 1, rms_db := [], rms_db_std := 0, raw_pitches := [],
    pitch_std := 0, spectral_centroids := [], zcr := [] }

/-- Intonation features of a nonempty clip with one positive pitch frame. -/
def intonation_features_trivial : IntonationFeatures :=
  { y_len := 1, raw_pitches := [200], pitch_std := 0, rms := [], rms_std := 0,
    peak_count := 0 }

/-- An empty-waveform voice-features record (triggers the explicit raise). -/
def voice_features_empty : VoiceFeatures :=
  { y_len := 0, rms_db := [], rms_db_std := 0, raw_pitches := [],
    pitch_std := 0, spectral_centroids := [], zcr := [] }

/-- A combined metrics object on which every aggregator rule is quiet but
the back-straightness value is poor: `generate_feedback` returns only the
universal success message even though `average_back_straightness < 0.7`. -/
def metrics_straightness_gap : AnalysisMetrics :=
  { posture :=
      { average_shoulder_alignment := 0.9, average_back_straightness := 0.5,
        stability_score := 0.9, confidence_score := 0.9, feedback := [] },
    eye_contact :=
      { eye_contact_percentage := 80, average_eye_contact_duration := 3,
        gaze_shifts_per_minute := 5, direct_eye_contact_score := 0.8,
        feedback := [] },
    voice_quality :=
      { average_volume := -20, volume_consistency := 0.9, clarity_score := 0.9,
        pitch_range := 50, average_pitch := 150, voice_stability := 0.9,
        feedback := [] },
    speech_disfluencies :=
      { stutter_count := 3, filler_word_count := 0, pause_count := 0,
        total_disfluencies := 3, disfluency_rate := 1, speech_rate := 150,
        feedback := [] },
    intonation :=
      { pitch_variation := 0.5, stress_pattern_score := 0.8,
        monotone_score := 0.5, energy_variation := 0.5, prosody_score := 0.8,
        feedback := [] } }

/-- An all-zero metrics object (used to evaluate the aggregator score). -/
def metrics_zero : AnalysisMetrics :=
  { posture :=
      { average_shoulder_alignment := 0, average_back_straightness := 0,
        stability_score := 0, confidence_score := 0, feedback := [] },
    eye_contact :=
      { eye_contact_percentage := 0, average_eye_contact_duration := 0,
        gaze_shifts_per_minute := 0, direct_eye_contact_score := 0,
        feedback := [] },
    voice_quality :=
      { average_volume := 0, volume_consistency := 0, clarity_score := 0,
        pitch_range := 0, average_pitch := 0, voice_stability := 0,
        feedback := [] },
    speech_disfluencies :=
      { stutter_count := 0, filler_word_count := 0, pause_count := 0,
        total_disfluencies := 0, disfluency_rate := 0, speech_rate := 0,
        feedback := [] },
    intonation :=
      { pitch_variation := 0, stress_pattern_score := 0, monotone_score := 0,
        energy_variation := 0, prosody_score := 0, feedback := [] } }

/-! ## General lemmas -/

lemma mean_nonneg {l : List ℚ} (h : ∀ x ∈ l, 0 ≤ x) : 0 ≤ mean l :=
  div_nonneg (List.sum_nonneg h) (by positivity)

lemma mean_le_one {l : List ℚ} (h : ∀ x ∈ l, x ≤ 1) : mean l ≤ 1 := by
  rcases eq_or_ne l [] with rfl | hne
  · simp [mean]
  · have hlen : (0 : ℚ) < l.length := by
      have := List.length_pos.mpr hne
      exact_mod_cast this
    have hsum : l.sum ≤ (l.length : ℚ) := by
      have := List.sum_le_card_nsmul l 1 h
      simpa using this
    rw [mean, div_le_one hlen]
    exact hsum

lemma mean_singleton (x : ℚ) : mean [x] = x := by
  simp [mean]

lemma mean_bounds {l : List ℚ} (h : ∀ x ∈ l, 0 ≤ x ∧ x ≤ 1) :
    0 ≤ mean l ∧ mean l ≤ 1 :=
  ⟨mean_nonneg fun x hx => (h x hx).1, mean_le_one fun x hx => (h x hx).2⟩

lemma fb_default_ne_nil (fb : List Msg) (m : Msg) :
    (if fb = [] then [m] else fb) ≠ [] := by
  split_ifs with h
  · simp
  · exact h

lemma mem_ite_single {p : Prop} [Decidable p] {a b : Msg} :
    (a ∈ if p then [b] else []) ↔ p ∧ a = b := by
  split_ifs with h <;> simp [h]

lemma mem_fb_default {fb : List Msg} {d x : Msg} (hx : x ≠ d) :
    (x ∈ if fb = [] then [d] else fb) ↔ x ∈ fb := by
  split_ifs with h
  · simp [h, hx]
  · exact Iff.rfl

lemma self_mem_fb_default {fb : List Msg} {d : Msg} (hd : d ∉ fb) :
    (d ∈ if fb = [] then [d] else fb) ↔ fb = [] := by
  split_ifs with h
  · simp [h]
  · simp [hd, h]

lemma ite_single_eq_nil {p : Prop} [Decidable p] {b : Msg} :
    ((if p then [b] else []) = []) ↔ ¬p := by
  split_ifs with h <;> simp [h]

/-! ## Bounds on the per-sample posture scores -/

lemma shoulder_alignment_of_bounds (f : PoseFrame) :
    0 ≤ shoulder_alignment_of f ∧ shoulder_alignment_of f ≤ 1 := by
  unfold shoulder_alignment_of
  have h0 : (0 : ℚ) ≤ |f.left_shoulder.y - f.right_shoulder.y| * 10 := by positivity
  have h1 : min (|f.left_shoulder.y - f.right_shoulder.y| * 10) 1 ≤ 1 :=
    min_le_right _ _
  have h2 : (0 : ℚ) ≤ min (|f.left_shoulder.y - f.right_shoulder.y| * 10) 1 :=
    le_min h0 zero_le_one
  constructor <;> linarith

lemma back_straightness_of_bounds (f : PoseFrame) :
    0 ≤ back_straightness_of f ∧ back_straightness_of f ≤ 1 := by
  unfold back_straightness_of
  dsimp only
  set v := |(f.left_shoulder.y + f.right_shoulder.y) / 2 -
    (f.left_hip.y + f.right_hip.y) / 2| with hv
  have hv0 : 0 ≤ v := abs_nonneg _
  split_ifs with h1 h2
  · have habs : |v - 0.2| ≤ 0.1 := by
      rw [abs_le]
      constructor <;> [linarith [h1.1]; linarith [h1.2]]
    have habs0 : 0 ≤ |v - 0.2| := abs_nonneg _
    constructor <;> linarith
  · constructor <;> linarith
  · push_neg at h2
    have h3 : 0.3 < v := by
      by_contra hc
      push_neg at hc
      exact h1 ⟨h2, hc⟩
    constructor
    · exact le_max_left _ _
    · have : (1 : ℚ) - (v - 0.3) * 2 ≤ 1 := by linarith
      exact max_le (by norm_num) this

lemma stability_of_bounds (p c : ℚ) :
    0 ≤ stability_of p c ∧ stability_of p c ≤ 1 := by
  unfold stability_of
  have h0 : (0 : ℚ) ≤ |c - p| * 20 := by positivity
  have h1 : min (|c - p| * 20) 1 ≤ 1 := min_le_right _ _
  have h2 : (0 : ℚ) ≤ min (|c - p| * 20) 1 := le_min h0 zero_le_one
  constructor <;> linarith

lemma confidence_of_bounds (f : PoseFrame) :
    0 ≤ confidence_of f ∧ confidence_of f ≤ 1 := by
  unfold confidence_of
  have h0 : (0 : ℚ) ≤ |f.left_shoulder.x - f.right_shoulder.x| * 3 := by positivity
  exact ⟨le_min h0 zero_le_one, min_le_right _ _⟩

/-! ## Characterization of the posture loop -/

lemma posture_run_lists (frames : List (Option PoseFrame)) :
    ∀ (idx : ℕ) (st : PostureState),
      (posture_run frames idx st).shoulder_alignments =
        st.shoulder_alignments ++
          (valid_samples frames st.frame_count).map shoulder_alignment_of ∧
      (posture_run frames idx st).back_straightness_scores =
        st.back_straightness_scores ++
          (valid_samples frames st.frame_count).map back_straightness_of ∧
      (posture_run frames idx st).confidence_scores =
        st.confidence_scores ++
          (valid_samples frames st.frame_count).map confidence_of ∧
      (posture_run frames idx st).stability_scores =
        st.stability_scores ++
          stab_chain st.prev_shoulder_center (valid_samples frames st.frame_count) := by
  induction frames with
  | nil =>
    intro idx st
    simp [posture_run, valid_samples, stab_chain]
  | cons fr rest ih =>
    intro idx st
    rw [show posture_run (fr :: rest) idx st =
      posture_run rest (idx + 1) (posture_step idx st fr) from rfl]
    by_cases h5 : st.frame_count % 5 = 0
    · cases fr with
      | none =>
        have hstep : posture_step idx st none =
          { st with processed := st.processed ++ [idx],
                    frame_count := st.frame_count + 1 } := by
          simp [posture_step, h5]
        rw [hstep]
        obtain ⟨ih1, ih2, ih3, ih4⟩ := ih (idx + 1)
          { st with processed := st.processed ++ [idx],
                    frame_count := st.frame_count + 1 }
        have hvs : valid_samples (none :: rest) st.frame_count =
            valid_samples rest (st.frame_count + 1) := by
          simp [valid_samples, h5]
        exact ⟨by rw [ih1, hvs], by rw [ih2, hvs], by rw [ih3, hvs],
          by rw [ih4, hvs]⟩
      | some f =>
        by_cases hv : landmarks_visible f
        · have hvs : valid_samples (some f :: rest) st.frame_count =
            f :: valid_samples rest (st.frame_count + 1) := by
            simp [valid_samples, h5, hv]
          have hstep : posture_step idx st (some f) =
            { st with
              processed := st.processed ++ [idx],
              shoulder_alignments := st.shoulder_alignments ++ [shoulder_alignment_of f],
              back_straightness_scores :=
                st.back_straightness_scores ++ [back_straightness_of f],
              stability_scores := st.stability_scores ++
                (match st.prev_shoulder_center with
                 | some p => [stability_of p (shoulder_center_of f)]
                 | none => []),
              prev_shoulder_center := some (shoulder_center_of f),
              confidence_scores := st.confidence_scores ++ [confidence_of f],
              frame_count := st.frame_count + 1 } := by
            simp [posture_step, h5, hv]
          rw [hstep]
          obtain ⟨ih1, ih2, ih3, ih4⟩ := ih (idx + 1)
            { st with
              processed := st.processed ++ [idx],
              shoulder_alignments := st.shoulder_alignments ++ [shoulder_alignment_of f],
              back_straightness_scores :=
                st.back_straightness_scores ++ [back_straightness_of f],
              stability_scores := st.stability_scores ++
                (match st.prev_shoulder_center with
                 | some p => [stability_of p (shoulder_center_of f)]
                 | none => []),
              prev_shoulder_center := some (shoulder_center_of f),
              confidence_scores := st.confidence_scores ++ [confidence_of f],
              frame_count := st.frame_count + 1 }
          refine ⟨?_, ?_, ?_, ?_⟩
          · rw [ih1, hvs]
            simp
          · rw [ih2, hvs]
            simp
          · rw [ih3, hvs]
            simp
          · rw [ih4, hvs]
            cases hp : st.prev_shoulder_center with
            | none => simp [stab_chain, hp]
            | some p => simp [stab_chain, hp]
        · have hvs : valid_samples (some f :: rest) st.frame_count =
            valid_samples rest st.frame_count := by
            simp [valid_samples, h5, hv]
          have hstep : posture_step idx st (some f) =
            { st with processed := st.processed ++ [idx] } := by
            simp [posture_step, h5, hv]
          rw [hstep]
          obtain ⟨ih1, ih2, ih3, ih4⟩ := ih (idx + 1)
            { st with processed := st.processed ++ [idx] }
          exact ⟨by rw [ih1, hvs], by rw [ih2, hvs], by rw [ih3, hvs],
            by rw [ih4, hvs]⟩
    · have hvs : valid_samples (fr :: rest) st.frame_count =
        valid_samples rest (st.frame_count + 1) := by
        cases fr <;> simp [valid_samples, h5]
      have hstep : posture_step idx st fr =
        { st with frame_count := st.frame_count + 1 } := by
        cases fr <;> simp [posture_step, h5]
      rw [hstep]
      obtain ⟨ih1, ih2, ih3, ih4⟩ := ih (idx + 1)
        { st with frame_count := st.frame_count + 1 }
      exact ⟨by rw [ih1, hvs], by rw [ih2, hvs], by rw [ih3, hvs],
        by rw [ih4, hvs]⟩

lemma stab_chain_bounds (p : Option ℚ) (vs : List PoseFrame) :
    ∀ x ∈ stab_chain p vs, 0 ≤ x ∧ x ≤ 1 := by
  induction vs generalizing p with
  | nil => intro x hx; simp [stab_chain] at hx
  | cons f rest ih =>
    intro x hx
    cases p with
    | none => exact ih _ x hx
    | some c =>
      simp only [stab_chain, List.mem_cons] at hx
      rcases hx with rfl | hx
      · exact stability_of_bounds _ _
      · exact ih _ x hx

lemma avg_or_default_bounds {l : List ℚ} (h : ∀ x ∈ l, 0 ≤ x ∧ x ≤ 1) :
    0 ≤ (if l ≠ [] then mean l else 0.7) ∧ (if l ≠ [] then mean l else 0.7) ≤ 1 := by
  split_ifs with hne
  · exact mean_bounds h
  · norm_num

lemma posture_run_init (frames : List (Option PoseFrame)) :
    (posture_run frames 0 posture_init).shoulder_alignments =
      (valid_samples frames 0).map shoulder_alignment_of ∧
    (posture_run frames 0 posture_init).back_straightness_scores =
      (valid_samples frames 0).map back_straightness_of ∧
    (posture_run frames 0 posture_init).confidence_scores =
      (valid_samples frames 0).map confidence_of ∧
    (posture_run frames 0 posture_init).stability_scores =
      stab_chain none (valid_samples frames 0) := by
  obtain ⟨h1, h2, h3, h4⟩ := posture_run_lists frames 0 posture_init
  refine ⟨?_, ?_, ?_, ?_⟩ <;> simp_all [posture_init]

lemma posture_field_bounds (frames : List (Option PoseFrame)) :
    (0 ≤ (posture_analyze frames).average_shoulder_alignment ∧
      (posture_analyze frames).average_shoulder_alignment ≤ 1) ∧
    (0 ≤ (posture_analyze frames).average_back_straightness ∧
      (posture_analyze frames).average_back_straightness ≤ 1) ∧
    (0 ≤ (posture_analyze frames).stability_score ∧
      (posture_analyze frames).stability_score ≤ 1) ∧
    (0 ≤ (posture_analyze frames).confidence_score ∧
      (posture_analyze frames).confidence_score ≤ 1) := by
  obtain ⟨h1, h2, h3, h4⟩ := posture_run_init frames
  unfold posture_analyze
  dsimp only
  rw [h1, h2, h3, h4]
  refine ⟨avg_or_default_bounds ?_, avg_or_default_bounds ?_,
    avg_or_default_bounds ?_, avg_or_default_bounds ?_⟩
  · intro x hx
    obtain ⟨f, _, rfl⟩ := List.mem_map.1 hx
    exact shoulder_alignment_of_bounds f
  · intro x hx
    obtain ⟨f, _, rfl⟩ := List.mem_map.1 hx
    exact back_straightness_of_bounds f
  · intro x hx
    exact stab_chain_bounds _ _ x hx
  · intro x hx
    obtain ⟨f, _, rfl⟩ := List.mem_map.1 hx
    exact confidence_of_bounds f

lemma posture_feedback_ne_nil (frames : List (Option PoseFrame)) :
    (posture_analyze frames).feedback ≠ [] :=
  fb_default_ne_nil _ _

/-! ## The eye-contact loop counters -/

lemma eye_step_counters (fps : ℚ) (fi : ℕ) (st : EyeState)
    (fr : Option FaceSample)
    (h : st.eye_contact_frames ≤ st.total_frames) :
    (eye_step fps fi st fr).eye_contact_frames ≤
      (eye_step fps fi st fr).total_frames := by
  unfold eye_step
  cases fr <;> dsimp only <;> split_ifs <;> dsimp only <;> omega

lemma eye_run_counters (fps : ℚ) (fi : ℕ) (frames : List (Option FaceSample)) :
    ∀ st : EyeState, st.eye_contact_frames ≤ st.total_frames →
      (eye_run fps fi frames st).eye_contact_frames ≤
        (eye_run fps fi frames st).total_frames := by
  induction frames with
  | nil => intro st h; exact h
  | cons fr rest ih =>
    intro st h
    exact ih _ (eye_step_counters fps fi st fr h)

lemma eye_state_after_counters (fps_raw : ℚ) (frames : List (Option FaceSample)) :
    (eye_state_after fps_raw frames).eye_contact_frames ≤
      (eye_state_after fps_raw frames).total_frames := by
  unfold eye_state_after
  dsimp only
  split_ifs with h
  · exact eye_run_counters _ _ frames eye_init (by simp [eye_init])
  · exact eye_run_counters _ _ frames eye_init (by simp [eye_init])

lemma eye_pct_bounds (fps_raw : ℚ) (frames : List (Option FaceSample)) :
    0 ≤ (eye_contact_analyze fps_raw frames).eye_contact_percentage ∧
      (eye_contact_analyze fps_raw frames).eye_contact_percentage ≤ 100 := by
  have hc := eye_state_after_counters fps_raw frames
  show 0 ≤ (if 0 < (eye_state_after fps_raw frames).total_frames then
      ((eye_state_after fps_raw frames).eye_contact_frames : ℚ) /
        ((eye_state_after fps_raw frames).total_frames : ℚ) * 100 else 0) ∧
    (if 0 < (eye_state_after fps_raw frames).total_frames then
      ((eye_state_after fps_raw frames).eye_contact_frames : ℚ) /
        ((eye_state_after fps_raw frames).total_frames : ℚ) * 100 else 0) ≤ 100
  split_ifs with h
  · have htf : (0 : ℚ) < ((eye_state_after fps_raw frames).total_frames : ℚ) := by
      exact_mod_cast h
    have hle : ((eye_state_after fps_raw frames).eye_contact_frames : ℚ) ≤
        ((eye_state_after fps_raw frames).total_frames : ℚ) := by
      exact_mod_cast hc
    have hdiv : ((eye_state_after fps_raw frames).eye_contact_frames : ℚ) /
        ((eye_state_after fps_raw frames).total_frames : ℚ) ≤ 1 :=
      (div_le_one htf).mpr hle
    have hdiv0 : 0 ≤ ((eye_state_after fps_raw frames).eye_contact_frames : ℚ) /
        ((eye_state_after fps_raw frames).total_frames : ℚ) := by positivity
    constructor <;> nlinarith
  · norm_num

lemma eye_direct_bounds (fps_raw : ℚ) (frames : List (Option FaceSample)) :
    0 ≤ (eye_contact_analyze fps_raw frames).direct_eye_contact_score ∧
      (eye_contact_analyze fps_raw frames).direct_eye_contact_score ≤ 1 := by
  have hp := (eye_pct_bounds fps_raw frames).1
  show 0 ≤ min ((eye_contact_analyze fps_raw frames).eye_contact_percentage / 100) 1 ∧
    min ((eye_contact_analyze fps_raw frames).eye_contact_percentage / 100) 1 ≤ 1
  exact ⟨le_min (by positivity) zero_le_one, min_le_right _ _⟩

lemma eye_feedback_core (tf : ℕ) (pct gpm avg : ℚ) (durs : List ℚ) :
    (let fb1 : List Msg :=
      if tf = 0 then [Msg.eye_no_face]
      else if pct < 40 then [Msg.eye_very_low]
      else if pct < 60 then [Msg.eye_aim]
      else []
     let fb2 := fb1 ++ (if 20 < gpm then [Msg.eye_shifts] else [])
     let fb3 := fb2 ++ (if avg < 2 ∧ durs ≠ [] then [Msg.eye_brief] else [])
     if fb3 = [] ∧ 0 < pct then fb3 ++ [Msg.eye_success] else fb3) ≠ [] := by
  dsimp only
  split_ifs <;> simp_all <;> linarith

lemma eye_feedback_ne_nil (fps_raw : ℚ) (frames : List (Option FaceSample)) :
    (eye_contact_analyze fps_raw frames).feedback ≠ [] :=
  eye_feedback_core _ _ _ _ _

/-! ## Voice and intonation bounds -/

lemma min_one_bounds {x : ℚ} (hx : 0 ≤ x) : 0 ≤ min 1 x ∧ min 1 x ≤ 1 :=
  ⟨le_min zero_le_one hx, min_le_left _ _⟩

lemma inv_one_plus_bounds {s d : ℚ} (hs : 0 ≤ s) (hd : 0 < d) :
    0 ≤ 1 / (1 + s / d) ∧ 1 / (1 + s / d) ≤ 1 := by
  have hsd : 0 ≤ s / d := div_nonneg hs hd.le
  have h1 : (0 : ℚ) < 1 + s / d := by linarith
  exact ⟨by positivity, (div_le_one h1).mpr (by linarith)⟩

lemma clarity_bounds {cs zc : List ℚ} (hc : ∀ x ∈ cs, 0 ≤ x) :
    0 ≤ min 1 ((mean cs / 3000) * (1 - min (mean zc) 0.1 * 5)) ∧
      min 1 ((mean cs / 3000) * (1 - min (mean zc) 0.1 * 5)) ≤ 1 := by
  refine min_one_bounds (mul_nonneg ?_ ?_)
  · exact div_nonneg (mean_nonneg hc) (by norm_num)
  · have := min_le_right (mean zc) (0.1 : ℚ)
    linarith

lemma voice_error_fields (e : String) :
    voice_analyze (Except.error e) =
      { average_volume := -20, volume_consistency := 0.7, clarity_score := 0.7,
        pitch_range := 50, average_pitch := 150, voice_stability := 0.7,
        feedback := [Msg.voice_failed e] } := rfl

lemma voice_ok_bounds (f : VoiceFeatures) (h1 : 0 ≤ f.rms_db_std)
    (h2 : 0 ≤ f.pitch_std) (h3 : ∀ c ∈ f.spectral_centroids, 0 ≤ c) :
    (0 ≤ (voice_analyze (Except.ok f)).volume_consistency ∧
      (voice_analyze (Except.ok f)).volume_consistency ≤ 1) ∧
    (0 ≤ (voice_analyze (Except.ok f)).clarity_score ∧
      (voice_analyze (Except.ok f)).clarity_score ≤ 1) ∧
    (0 ≤ (voice_analyze (Except.ok f)).voice_stability ∧
      (voice_analyze (Except.ok f)).voice_stability ≤ 1) := by
  by_cases h0 : f.y_len = 0
  · simp only [voice_analyze, voice_body, h0, if_true]
    norm_num
  · simp only [voice_analyze, voice_body, h0, if_false]
    refine ⟨inv_one_plus_bounds h1 (by norm_num), clarity_bounds h3, ?_⟩
    split_ifs with hlen
    · exact inv_one_plus_bounds h2 (by norm_num)
    · norm_num

lemma voice_feedback_ne_nil (inp : Except String VoiceFeatures) :
    (voice_analyze inp).feedback ≠ [] := by
  cases inp with
  | error e => simp [voice_error_fields]
  | ok f =>
    by_cases h0 : f.y_len = 0
    · simp [voice_analyze, voice_body, h0]
    · simp only [voice_analyze, voice_body, h0, if_false]
      exact fb_default_ne_nil _ _

lemma intonation_main_eq (f : IntonationFeatures) (h0 : ¬ f.y_len = 0)
    (hpv : f.raw_pitches.filter (fun pitch => decide (0 < pitch)) ≠ []) :
    intonation_analyze (Except.ok f) =
      (let pitch_values := f.raw_pitches.filter (fun pitch => decide (0 < pitch))
       let pitch_variation :=
         if 0 < mean pitch_values then min 1 (f.pitch_std / mean pitch_values * 2)
         else 0.3
       let monotone_score := 1 - pitch_variation
       let energy_variation :=
         if 1 < f.rms.length then
           min 1 (f.rms_std / (mean f.rms + 1 / 10000000000) * 3)
         else 0.4
       let stress_pattern_score :=
         if 0 < f.rms.length then
           min 1 ((f.peak_count : ℚ) / (f.rms.length : ℚ) * 10)
         else 0.5
       let prosody_score :=
         pitch_variation * 0.4 + energy_variation * 0.3 +
           stress_pattern_score * 0.3
       let fb1 : List Msg :=
         if 0.6 < monotone_score then [Msg.intonation_monotone] else []
       let fb2 := fb1 ++
         (if pitch_variation < 0.3 then [Msg.intonation_pitch_var] else [])
       let fb3 := fb2 ++
         (if energy_variation < 0.3 then [Msg.intonation_energy] else [])
       let fb4 := fb3 ++
         (if stress_pattern_score < 0.5 then [Msg.intonation_stress] else [])
       let fb5 := fb4 ++
         (if prosody_score < 0.5 then [Msg.intonation_prosody] else [])
       let feedback := if fb5 = [] then [Msg.intonation_success] else fb5
       { pitch_variation := pitch_variation,
         stress_pattern_score := stress_pattern_score,
         monotone_score := monotone_score,
         energy_variation := energy_variation,
         prosody_score := prosody_score, feedback := feedback }) := by
  simp only [intonation_analyze]
  rw [if_neg h0, if_neg hpv]

lemma intonation_bounds (inp : Except String IntonationFeatures)
    (hok : ∀ f, inp = Except.ok f →
      0 ≤ f.pitch_std ∧ 0 ≤ f.rms_std ∧ ∀ r ∈ f.rms, 0 ≤ r) :
    (0 ≤ (intonation_analyze inp).pitch_variation ∧
      (intonation_analyze inp).pitch_variation ≤ 1) ∧
    (0 ≤ (intonation_analyze inp).stress_pattern_score ∧
      (intonation_analyze inp).stress_pattern_score ≤ 1) ∧
    (0 ≤ (intonation_analyze inp).monotone_score ∧
      (intonation_analyze inp).monotone_score ≤ 1) ∧
    (0 ≤ (intonation_analyze inp).energy_variation ∧
      (intonation_analyze inp).energy_variation ≤ 1) ∧
    (0 ≤ (intonation_analyze inp).prosody_score ∧
      (intonation_analyze inp).prosody_score ≤ 1) := by
  cases inp with
  | error e => norm_num [intonation_analyze]
  | ok f =>
    obtain ⟨hps, hrs, hr⟩ := hok f rfl
    by_cases h0 : f.y_len = 0
    · norm_num [intonation_analyze, h0]
    · by_cases hpv : f.raw_pitches.filter (fun pitch => decide (0 < pitch)) = []
      · simp only [intonation_analyze]
        rw [if_neg h0, if_pos hpv]
        norm_num
      · rw [intonation_main_eq f h0 hpv]
        dsimp only
        have hpvb : 0 ≤ (if 0 < mean (f.raw_pitches.filter (fun pitch => decide (0 < pitch))) then
            min 1 (f.pitch_std / mean (f.raw_pitches.filter (fun pitch => decide (0 < pitch))) * 2)
          else 0.3) ∧
          (if 0 < mean (f.raw_pitches.filter (fun pitch => decide (0 < pitch))) then
            min 1 (f.pitch_std / mean (f.raw_pitches.filter (fun pitch => decide (0 < pitch))) * 2)
          else 0.3) ≤ 1 := by
          split_ifs with hm
          · exact min_one_bounds (by positivity)
          · norm_num
        have hevb : 0 ≤ (if 1 < f.rms.length then
            min 1 (f.rms_std / (mean f.rms + 1 / 10000000000) * 3) else 0.4) ∧
          (if 1 < f.rms.length then
            min 1 (f.rms_std / (mean f.rms + 1 / 10000000000) * 3) else 0.4) ≤ 1 := by
          split_ifs with hm
          · refine min_one_bounds ?_
            have hmean : 0 ≤ mean f.rms := mean_nonneg hr
            have hden : (0 : ℚ) < mean f.rms + 1 / 10000000000 := by linarith
            positivity
          · norm_num
        have hspb : 0 ≤ (if 0 < f.rms.length then
            min 1 ((f.peak_count : ℚ) / (f.rms.length : ℚ) * 10) else 0.5) ∧
          (if 0 < f.rms.length then
            min 1 ((f.peak_count : ℚ) / (f.rms.length : ℚ) * 10) else 0.5) ≤ 1 := by
          split_ifs with hm
          · exact min_one_bounds (by positivity)
          · norm_num
        refine ⟨hpvb, hspb, ⟨by linarith [hpvb.2], by linarith [hpvb.1]⟩, hevb, ?_, ?_⟩
        · nlinarith [hpvb.1, hevb.1, hspb.1]
        · nlinarith [hpvb.2, hevb.2, hspb.2]

lemma intonation_feedback_ne_nil (inp : Except String IntonationFeatures) :
    (intonation_analyze inp).feedback ≠ [] := by
  cases inp with
  | error e => simp [intonation_analyze]
  | ok f =>
    by_cases h0 : f.y_len = 0
    · simp [intonation_analyze, h0]
    · by_cases hpv : f.raw_pitches.filter (fun pitch => decide (0 < pitch)) = []
      · simp only [intonation_analyze]
        rw [if_neg h0, if_pos hpv]
        simp
      · rw [intonation_main_eq f h0 hpv]
        exact fb_default_ne_nil _ _

lemma speech_feedback_ne_nil (inp : Except String SpeechRaw) :
    (speech_analyze inp).feedback ≠ [] := by
  cases inp with
  | error e => simp [speech_analyze]
  | ok r => exact fb_default_ne_nil _ _

/-! ## Rounding bounds -/

lemma roundHalfEven_mem {q : ℚ} {lo hi : ℤ} (hlo : (lo : ℚ) ≤ q)
    (hhi : q ≤ (hi : ℚ)) : lo ≤ roundHalfEven q ∧ roundHalfEven q ≤ hi := by
  unfold roundHalfEven
  dsimp only
  have hfl : lo ≤ ⌊q⌋ := Int.le_floor.mpr hlo
  have hfu : (⌊q⌋ : ℚ) ≤ q := Int.floor_le q
  have hfhi : ⌊q⌋ ≤ hi := by
    have := Int.floor_le_floor hhi
    simpa using this
  have hsucc : 1 / 2 < q - (⌊q⌋ : ℚ) → ⌊q⌋ + 1 ≤ hi := by
    intro hr
    have hlt : (⌊q⌋ : ℚ) < (hi : ℚ) := by linarith
    have : ⌊q⌋ < hi := by exact_mod_cast hlt
    omega
  have hsucc2 : q - (⌊q⌋ : ℚ) = 1 / 2 → ⌊q⌋ + 1 ≤ hi := by
    intro hr
    have hlt : (⌊q⌋ : ℚ) < (hi : ℚ) := by linarith
    have : ⌊q⌋ < hi := by exact_mod_cast hlt
    omega
  split_ifs with hr1 hr2 hpar
  · exact ⟨hfl, hfhi⟩
  · exact ⟨by omega, hsucc hr2⟩
  · exact ⟨hfl, hfhi⟩
  · have hq : q - (⌊q⌋ : ℚ) = 1 / 2 := by linarith
    exact ⟨by omega, hsucc2 hq⟩

lemma pyRound2_bounds {q : ℚ} (h0 : 0 ≤ q) (h100 : q ≤ 100) :
    0 ≤ pyRound2 q ∧ pyRound2 q ≤ 100 := by
  have hm := @roundHalfEven_mem (q * 100) 0 10000
    (by push_cast; linarith) (by push_cast; linarith)
  unfold pyRound2
  have h1 : (0 : ℚ) ≤ (roundHalfEven (q * 100) : ℚ) := by exact_mod_cast hm.1
  have h2 : (roundHalfEven (q * 100) : ℚ) ≤ 10000 := by exact_mod_cast hm.2
  constructor
  · positivity
  · rw [div_le_iff (by norm_num : (0:ℚ) < 100)]
    linarith

/-! ## Claim theorems -/

/-- C2: when no sampled frame yields a detected face the analyzer returns
`eye_contact_percentage = 0` exactly, and whenever the face-detected counter
is positive the percentage is `looking_samples / face_detected_samples ×
100`. -/
theorem C2_eye_percentage :
    ∀ (fps_raw : ℚ) (frames : List (Option FaceSample)),
      ((eye_state_after fps_raw frames).total_frames = 0 →
        (eye_contact_analyze fps_raw frames).eye_contact_percentage = 0) ∧
      (0 < (eye_state_after fps_raw frames).total_frames →
        (eye_contact_analyze fps_raw frames).eye_contact_percentage =
          ((eye_state_after fps_raw frames).eye_contact_frames : ℚ) /
            ((eye_state_after fps_raw frames).total_frames : ℚ) * 100) := by
  intro fps_raw frames
  constructor
  · intro h
    show (if 0 < (eye_state_after fps_raw frames).total_frames then
        ((eye_state_after fps_raw frames).eye_contact_frames : ℚ) /
          ((eye_state_after fps_raw frames).total_frames : ℚ) * 100 else 0) = 0
    rw [if_neg (by omega)]
  · intro h
    show (if 0 < (eye_state_after fps_raw frames).total_frames then
        ((eye_state_after fps_raw frames).eye_contact_frames : ℚ) /
          ((eye_state_after fps_raw frames).total_frames : ℚ) * 100 else 0) = _
    rw [if_pos h]

/-- C2 witness: on an empty decoded-frame list no face is ever detected and
the percentage is exactly `0`. -/
theorem C2_witness :
    (eye_state_after 30 []).total_frames = 0 ∧
    (eye_contact_analyze 30 []).eye_contact_percentage = 0 := by
  have h : (eye_state_after 30 []).total_frames = 0 := by
    simp [eye_state_after, eye_run, eye_init]
  exact ⟨h, (C2_eye_percentage 30 []).1 h⟩

/-- C5: every failure inside `VoiceAnalyzer.analyze` (modelled as an
erroring body, including the explicit raise on an empty waveform) yields the
fixed fallback record `{-20.0, 0.7, 0.7, 50.0, 150.0, 0.7}` plus an
explanatory feedback entry; the analyzer itself is a total function. -/
theorem C5_voice_fallback :
    (∀ (inp : Except String VoiceFeatures) (e : String),
      voice_body inp = Except.error e →
        voice_analyze inp =
          { average_volume := -20, volume_consistency := 0.7,
            clarity_score := 0.7, pitch_range := 50, average_pitch := 150,
            voice_stability := 0.7, feedback := [Msg.voice_failed e] }) ∧
    (∀ f : VoiceFeatures, f.y_len = 0 →
      voice_body (Except.ok f) = Except.error ("Audio file is empty")) := by
  constructor
  · intro inp e h
    unfold voice_analyze
    rw [h]
  · intro f h
    simp [voice_body, h]

/-- C5 witness: the empty-waveform input takes the explicit raise and the
fallback record is produced. -/
theorem C5_witness :
    voice_body (Except.ok voice_features_empty) =
      Except.error ("Audio file is empty") ∧
    voice_analyze (Except.ok voice_features_empty) =
      { average_volume := -20, volume_consistency := 0.7, clarity_score := 0.7,
        pitch_range := 50, average_pitch := 150, voice_stability := 0.7,
        feedback := [Msg.voice_failed ("Audio file is empty")] } := by
  have h2 := C5_voice_fallback.2 voice_features_empty rfl
  exact ⟨h2, C5_voice_fallback.1 _ _ h2⟩

/-- C7: the stutter detector is a single left-to-right pass: at position
`i` it counts one stutter and advances by 2 on an adjacent repeat of a word
longer than 2 characters, else counts one and advances by 3 on a
distance-2 repeat of a word of length at most 3, else advances by 1; on the
token sequence `the the cat` it returns exactly 1. -/
theorem C7_stutter_single_pass :
    (∀ (ws : List (List Char)) (i : ℕ), i < ws.length - 1 →
      stutter_loop ws i =
        if ws[i]! = ws[i + 1]! ∧ 2 < (ws[i]!).length then
          1 + stutter_loop ws (i + 2)
        else if i < ws.length - 2 ∧ ws[i]! = ws[i + 2]! ∧ (ws[i]!).length ≤ 3 then
          1 + stutter_loop ws (i + 3)
        else stutter_loop ws (i + 1)) ∧
    (∀ (ws : List (List Char)) (i : ℕ), ¬ i < ws.length - 1 →
      stutter_loop ws i = 0) ∧
    stutter_loop (["the".data, "the".data, "cat".data]) 0 = 1 ∧
    detect_stutters ("the the cat".data) = 1 := by
  refine ⟨?_, ?_, ?_, ?_⟩
  · intro ws i h
    rw [stutter_loop]
    rw [dif_pos h]
  · intro ws i h
    rw [stutter_loop]
    rw [dif_neg h]
  · rw [stutter_loop]
    norm_num
    rw [stutter_loop]
    norm_num
  · rw [detect_stutters, show pySplit (pyLower ("the the cat".data)) =
      ["the".data, "the".data, "cat".data] from by decide]
    rw [stutter_loop]
    norm_num
    rw [stutter_loop]
    norm_num

/-- C7 witness: the first loop equation applied at the concrete token list
`the the cat` at position 0: both conditions of the first branch hold, one
stutter is counted and the index advances by 2. -/
theorem C7_witness :
    stutter_loop (["the".data, "the".data, "cat".data]) 0 =
      1 + stutter_loop (["the".data, "the".data, "cat".data]) 2 := by
  have h := C7_stutter_single_pass.1 (["the".data, "the".data, "cat".data]) 0
    (by norm_num)
  rw [h]
  norm_num

/-- C8: the filler counter sums, over the fixed ten-entry lexicon, the
case-insensitive substring-occurrence count of each entry in the full
transcript; on `um, like, you know what I mean` it returns exactly 3. -/
theorem C8_filler_count :
    (∀ text : List Char, detect_filler_words text =
      pyCount ("um".data) (pyLower text) + pyCount ("uh".data) (pyLower text) +
      pyCount ("er".data) (pyLower text) + pyCount ("ah".data) (pyLower text) +
      pyCount ("like".data) (pyLower text) +
      pyCount ("you know".data) (pyLower text) +
      pyCount ("so".data) (pyLower text) + pyCount ("well".data) (pyLower text) +
      pyCount ("actually".data) (pyLower text) +
      pyCount ("basically".data) (pyLower text)) ∧
    detect_filler_words ("um, like, you know what I mean".data) = 3 := by
  constructor
  · intro text
    simp [detect_filler_words, filler_words]
    ring
  · decide

/-- C9: every feedback list is non-empty: each of the five analyzers
returns at least one feedback entry on every input (fallbacks included),
and the aggregate `generate_feedback` list is never empty. -/
theorem C9_feedback_nonempty :
    (∀ frames, (posture_analyze frames).feedback ≠ []) ∧
    (∀ fps_raw frames, (eye_contact_analyze fps_raw frames).feedback ≠ []) ∧
    (∀ inp, (voice_analyze inp).feedback ≠ []) ∧
    (∀ inp, (intonation_analyze inp).feedback ≠ []) ∧
    (∀ inp, (speech_analyze inp).feedback ≠ []) ∧
    (∀ m, generate_feedback m ≠ []) :=
  ⟨posture_feedback_ne_nil, eye_feedback_ne_nil, voice_feedback_ne_nil,
   intonation_feedback_ne_nil, speech_feedback_ne_nil,
   fun _ => fb_default_ne_nil _ _⟩

/-- C10: a video yielding exactly one valid pose sample gets the neutral
`0.7` only for `stability_score` (no consecutive pair exists), while the
other three posture fields equal the single sample's measured values. -/
theorem C10_single_sample :
    ∀ (frames : List (Option PoseFrame)) (s : PoseFrame),
      valid_samples frames 0 = [s] →
        (posture_analyze frames).stability_score = 0.7 ∧
        (posture_analyze frames).average_shoulder_alignment =
          shoulder_alignment_of s ∧
        (posture_analyze frames).average_back_straightness =
          back_straightness_of s ∧
        (posture_analyze frames).confidence_score = confidence_of s := by
  intro frames s hvs
  obtain ⟨h1, h2, h3, h4⟩ := posture_run_init frames
  rw [hvs] at h1 h2 h3 h4
  unfold posture_analyze
  dsimp only
  rw [h1, h2, h3, h4]
  simp [stab_chain, mean_singleton]

/-- C10 witness: the one-visible-frame video measures three fields from the
sample and defaults stability to `0.7`. -/
theorem C10_witness :
    valid_samples single_sample_frames 0 = [pose_visible] ∧
    (posture_analyze single_sample_frames).stability_score = 0.7 ∧
    (posture_analyze single_sample_frames).average_shoulder_alignment =
      shoulder_alignment_of pose_visible := by
  have hv : valid_samples single_sample_frames 0 = [pose_visible] := by
    norm_num [single_sample_frames, valid_samples, landmarks_visible,
      pose_visible]
  have h := C10_single_sample single_sample_frames pose_visible hv
  exact ⟨hv, h.1, h.2.1⟩

/-- C1: every ratio-typed metric field stays in `[0,1]` — the four posture
fields, the three voice ratio fields, the five intonation fields,
`direct_eye_contact_score` — and `eye_contact_percentage` stays in
`[0,100]`, fallback and default records included.  The numpy standard
deviations and spectral centroids the analyzers consume are nonnegative by
construction, stated here as hypotheses on the collaborator inputs. -/
theorem C1_ratio_fields :
    (∀ frames : List (Option PoseFrame),
      (0 ≤ (posture_analyze frames).average_shoulder_alignment ∧
        (posture_analyze frames).average_shoulder_alignment ≤ 1) ∧
      (0 ≤ (posture_analyze frames).average_back_straightness ∧
        (posture_analyze frames).average_back_straightness ≤ 1) ∧
      (0 ≤ (posture_analyze frames).stability_score ∧
        (posture_analyze frames).stability_score ≤ 1) ∧
      (0 ≤ (posture_analyze frames).confidence_score ∧
        (posture_analyze frames).confidence_score ≤ 1)) ∧
    (∀ (fps_raw : ℚ) (frames : List (Option FaceSample)),
      (0 ≤ (eye_contact_analyze fps_raw frames).eye_contact_percentage ∧
        (eye_contact_analyze fps_raw frames).eye_contact_percentage ≤ 100) ∧
      (0 ≤ (eye_contact_analyze fps_raw frames).direct_eye_contact_score ∧
        (eye_contact_analyze fps_raw frames).direct_eye_contact_score ≤ 1)) ∧
    (∀ e : String,
      (0 ≤ (voice_analyze (Except.error e)).volume_consistency ∧
        (voice_analyze (Except.error e)).volume_consistency ≤ 1) ∧
      (0 ≤ (voice_analyze (Except.error e)).clarity_score ∧
        (voice_analyze (Except.error e)).clarity_score ≤ 1) ∧
      (0 ≤ (voice_analyze (Except.error e)).voice_stability ∧
        (voice_analyze (Except.error e)).voice_stability ≤ 1)) ∧
    (∀ f : VoiceFeatures, 0 ≤ f.rms_db_std → 0 ≤ f.pitch_std →
      (∀ c ∈ f.spectral_centroids, 0 ≤ c) →
      (0 ≤ (voice_analyze (Except.ok f)).volume_consistency ∧
        (voice_analyze (Except.ok f)).volume_consistency ≤ 1) ∧
      (0 ≤ (voice_analyze (Except.ok f)).clarity_score ∧
        (voice_analyze (Except.ok f)).clarity_score ≤ 1) ∧
      (0 ≤ (voice_analyze (Except.ok f)).voice_stability ∧
        (voice_analyze (Except.ok f)).voice_stability ≤ 1)) ∧
    (∀ inp : Except String IntonationFeatures,
      (∀ f, inp = Except.ok f →
        0 ≤ f.pitch_std ∧ 0 ≤ f.rms_std ∧ ∀ r ∈ f.rms, 0 ≤ r) →
      (0 ≤ (intonation_analyze inp).pitch_variation ∧
        (intonation_analyze inp).pitch_variation ≤ 1) ∧
      (0 ≤ (intonation_analyze inp).stress_pattern_score ∧
        (intonation_analyze inp).stress_pattern_score ≤ 1) ∧
      (0 ≤ (intonation_analyze inp).monotone_score ∧
        (intonation_analyze inp).monotone_score ≤ 1) ∧
      (0 ≤ (intonation_analyze inp).energy_variation ∧
        (intonation_analyze inp).energy_variation ≤ 1) ∧
      (0 ≤ (intonation_analyze inp).prosody_score ∧
        (intonation_analyze inp).prosody_score ≤ 1)) := by
  refine ⟨posture_field_bounds, ?_, ?_, voice_ok_bounds, intonation_bounds⟩
  · intro fps_raw frames
    exact ⟨eye_pct_bounds fps_raw frames, eye_direct_bounds fps_raw frames⟩
  · intro e
    rw [voice_error_fields]
    norm_num

/-- C1 witness: the bounds instantiated at concrete trivial inputs, with
the nonnegativity hypotheses discharged. -/
theorem C1_witness :
    (0 ≤ (voice_analyze (Except.ok voice_features_trivial)).volume_consistency ∧
      (voice_analyze (Except.ok voice_features_trivial)).volume_consistency ≤ 1) ∧
    (0 ≤ (intonation_analyze
        (Except.ok intonation_features_trivial)).prosody_score ∧
      (intonation_analyze (Except.ok intonation_features_trivial)).prosody_score ≤ 1) ∧
    0 ≤ (posture_analyze single_sample_frames).average_shoulder_alignment := by
  refine ⟨(C1_ratio_fields.2.2.2.1 voice_features_trivial (by norm_num
    [voice_features_trivial]) (by norm_num [voice_features_trivial])
    (by simp [voice_features_trivial])).1, ?_, ?_⟩
  · refine ((C1_ratio_fields.2.2.2.2 (Except.ok intonation_features_trivial)
      ?_).2.2.2.2)
    intro f hf
    injection hf with hf
    subst hf
    refine ⟨by norm_num [intonation_features_trivial],
      by norm_num [intonation_features_trivial],
      by simp [intonation_features_trivial]⟩
  · exact (C1_ratio_fields.1 single_sample_frames).1.1

/-- C3: the overall score is the two-decimal rounding of the weighted blend
`p×15 + e×20 + v×20 + 0.20×max(0, 100 − 10×rate) + i×25` of the four
sub-blends, and lies in `[0,100]` whenever the fields are in their declared
ranges (stated as one conjunction hypothesis). -/
theorem C3_overall_score (m : AnalysisMetrics)
    (h : (0 ≤ m.posture.average_shoulder_alignment ∧
        m.posture.average_shoulder_alignment ≤ 1) ∧
      (0 ≤ m.posture.average_back_straightness ∧
        m.posture.average_back_straightness ≤ 1) ∧
      (0 ≤ m.posture.stability_score ∧ m.posture.stability_score ≤ 1) ∧
      (0 ≤ m.posture.confidence_score ∧ m.posture.confidence_score ≤ 1) ∧
      (0 ≤ m.eye_contact.eye_contact_percentage ∧
        m.eye_contact.eye_contact_percentage ≤ 100) ∧
      (0 ≤ m.eye_contact.direct_eye_contact_score ∧
        m.eye_contact.direct_eye_contact_score ≤ 1) ∧
      (0 ≤ m.voice_quality.clarity_score ∧ m.voice_quality.clarity_score ≤ 1) ∧
      (0 ≤ m.voice_quality.volume_consistency ∧
        m.voice_quality.volume_consistency ≤ 1) ∧
      (0 ≤ m.voice_quality.voice_stability ∧
        m.voice_quality.voice_stability ≤ 1) ∧
      0 ≤ m.speech_disfluencies.disfluency_rate ∧
      (0 ≤ m.intonation.monotone_score ∧ m.intonation.monotone_score ≤ 1) ∧
      (0 ≤ m.intonation.prosody_score ∧ m.intonation.prosody_score ≤ 1)) :
    calculate_overall_score m =
      pyRound2
        ((0.3 * m.posture.average_shoulder_alignment +
          0.3 * m.posture.average_back_straightness +
          0.2 * m.posture.stability_score +
          0.2 * m.posture.confidence_score) * 15 +
        (0.6 * (m.eye_contact.eye_contact_percentage / 100) +
          0.4 * m.eye_contact.direct_eye_contact_score) * 20 +
        (0.3 * m.voice_quality.clarity_score +
          0.3 * m.voice_quality.volume_consistency +
          0.4 * m.voice_quality.voice_stability) * 20 +
        0.20 * max 0 (100 - 10 * m.speech_disfluencies.disfluency_rate) +
        (0.4 * (1 - m.intonation.monotone_score) +
          0.6 * m.intonation.prosody_score) * 25) ∧
    0 ≤ calculate_overall_score m ∧ calculate_overall_score m ≤ 100 := by
  obtain ⟨⟨h1, h2⟩, ⟨h3, h4⟩, ⟨h5, h6⟩, ⟨h7, h8⟩, ⟨h9, h10⟩, ⟨h11, h12⟩,
    ⟨h13, h14⟩, ⟨h15, h16⟩, ⟨h17, h18⟩, h19, ⟨h20, h21⟩, ⟨h22, h23⟩⟩ := h
  have hD0 : (0 : ℚ) ≤ max 0 (100 - m.speech_disfluencies.disfluency_rate * 10) :=
    le_max_left _ _
  have hD1 : max 0 (100 - m.speech_disfluencies.disfluency_rate * 10) ≤ 100 :=
    max_le (by norm_num) (by linarith)
  have heq : calculate_overall_score m =
      pyRound2
        ((0.3 * m.posture.average_shoulder_alignment +
          0.3 * m.posture.average_back_straightness +
          0.2 * m.posture.stability_score +
          0.2 * m.posture.confidence_score) * 15 +
        (0.6 * (m.eye_contact.eye_contact_percentage / 100) +
          0.4 * m.eye_contact.direct_eye_contact_score) * 20 +
        (0.3 * m.voice_quality.clarity_score +
          0.3 * m.voice_quality.volume_consistency +
          0.4 * m.voice_quality.voice_stability) * 20 +
        0.20 * max 0 (100 - 10 * m.speech_disfluencies.disfluency_rate) +
        (0.4 * (1 - m.intonation.monotone_score) +
          0.6 * m.intonation.prosody_score) * 25) := by
    unfold calculate_overall_score
    dsimp only
    rw [show (100 : ℚ) - 10 * m.speech_disfluencies.disfluency_rate =
      100 - m.speech_disfluencies.disfluency_rate * 10 from by ring]
    congr 1
    ring
  have hb : 0 ≤ calculate_overall_score m ∧ calculate_overall_score m ≤ 100 := by
    unfold calculate_overall_score
    dsimp only
    exact pyRound2_bounds (by nlinarith) (by nlinarith)
  exact ⟨heq, hb⟩

/-- C3 witness: on the all-zero metrics object, only the disfluency part
(`0.20 × 100`) and the intonation part (`0.4 × 100 × 0.25`) contribute, so
the score is exactly `30`. -/
theorem C3_witness :
    calculate_overall_score metrics_zero = 30 ∧
    0 ≤ calculate_overall_score metrics_zero ∧
    calculate_overall_score metrics_zero ≤ 100 := by
  have h := C3_overall_score metrics_zero (by norm_num [metrics_zero])
  refine ⟨?_, h.2.1, h.2.2⟩
  rw [h.1]
  norm_num [metrics_zero]
  unfold pyRound2 roundHalfEven
  norm_num

/-- C6: the claim is right and the code has a slip — after a sample is
skipped for low landmark visibility, `continue` bypasses the
`frame_count += 1` line, so the very next decoded frame is also processed:
on `stride_frames` the pose landmarks are evaluated at decode indices
`0, 5, 6`, and `6` is not a multiple of `5`. -/
theorem C6_stride_slip :
    (posture_run stride_frames 0 posture_init).processed = [0, 5, 6] ∧
    ¬ (∀ i ∈ (posture_run stride_frames 0 posture_init).processed,
        i % 5 = 0) := by
  have h : (posture_run stride_frames 0 posture_init).processed = [0, 5, 6] := by
    norm_num [stride_frames, posture_run, posture_step, posture_init,
      landmarks_visible, pose_visible, pose_hidden]
  refine ⟨h, fun hall => ?_⟩
  have h6 := hall 6 (by rw [h]; simp)
  omega

/-- C4 counterexample: on `metrics_straightness_gap` the back-straightness
value is below `0.7` and the stutter count is positive, yet
`generate_feedback` emits no straightness or stutter message — it returns
exactly the universal success message, which the claim forbids when a rule
predicate holds. -/
theorem C4_counterexample :
    metrics_straightness_gap.posture.average_back_straightness < 0.7 ∧
    0 < metrics_straightness_gap.speech_disfluencies.stutter_count ∧
    generate_feedback metrics_straightness_gap = [Msg.agg_success] := by
  refine ⟨by norm_num [metrics_straightness_gap],
    by norm_num [metrics_straightness_gap], ?_⟩
  norm_num [generate_feedback, agg_rules, metrics_straightness_gap]

/-- C4 amended: `generate_feedback` re-applies exactly ten rules —
alignment<0.7, stability<0.6, eye%<60, shifts/min>20, volume
consistency<0.7, clarity<0.7, disfluency rate>5, filler count>10,
monotone>0.6, prosody<0.6 — each emitting its message exactly when its
predicate holds (no straightness, openness, stutter or eye<40 rules
exist), and appends the universal success message exactly when no rule
fires. -/
theorem C4_amended (m : AnalysisMetrics) :
    (Msg.agg_alignment ∈ generate_feedback m ↔
      m.posture.average_shoulder_alignment < 0.7) ∧
    (Msg.agg_stability ∈ generate_feedback m ↔
      m.posture.stability_score < 0.6) ∧
    (Msg.agg_eye ∈ generate_feedback m ↔
      m.eye_contact.eye_contact_percentage < 60) ∧
    (Msg.agg_shifts ∈ generate_feedback m ↔
      20 < m.eye_contact.gaze_shifts_per_minute) ∧
    (Msg.agg_volume ∈ generate_feedback m ↔
      m.voice_quality.volume_consistency < 0.7) ∧
    (Msg.agg_clarity ∈ generate_feedback m ↔
      m.voice_quality.clarity_score < 0.7) ∧
    (Msg.agg_disfluency ∈ generate_feedback m ↔
      5 < m.speech_disfluencies.disfluency_rate) ∧
    (Msg.agg_fillers ∈ generate_feedback m ↔
      10 < m.speech_disfluencies.filler_word_count) ∧
    (Msg.agg_monotone ∈ generate_feedback m ↔
      0.6 < m.intonation.monotone_score) ∧
    (Msg.agg_prosody ∈ generate_feedback m ↔
      m.intonation.prosody_score < 0.6) ∧
    (Msg.agg_success ∈ generate_feedback m ↔
      (¬ m.posture.average_shoulder_alignment < 0.7 ∧
       ¬ m.posture.stability_score < 0.6 ∧
       ¬ m.eye_contact.eye_contact_percentage < 60 ∧
       ¬ 20 < m.eye_contact.gaze_shifts_per_minute ∧
       ¬ m.voice_quality.volume_consistency < 0.7 ∧
       ¬ m.voice_quality.clarity_score < 0.7 ∧
       ¬ 5 < m.speech_disfluencies.disfluency_rate ∧
       ¬ 10 < m.speech_disfluencies.filler_word_count ∧
       ¬ 0.6 < m.intonation.monotone_score ∧
       ¬ m.intonation.prosody_score < 0.6)) := by
  have hnot : Msg.agg_success ∉ agg_rules m := by
    simp [agg_rules, mem_ite_single, List.mem_append]
  refine ⟨?_, ?_, ?_, ?_, ?_, ?_, ?_, ?_, ?_, ?_, ?_⟩
  · rw [generate_feedback, mem_fb_default (by simp)]
    simp [agg_rules, mem_ite_single, List.mem_append]
  · rw [generate_feedback, mem_fb_default (by simp)]
    simp [agg_rules, mem_ite_single, List.mem_append]
  · rw [generate_feedback, mem_fb_default (by simp)]
    simp [agg_rules, mem_ite_single, List.mem_append]
  · rw [generate_feedback, mem_fb_default (by simp)]
    simp [agg_rules, mem_ite_single, List.mem_append]
  · rw [generate_feedback, mem_fb_default (by simp)]
    simp [agg_rules, mem_ite_single, List.mem_append]
  · rw [generate_feedback, mem_fb_default (by simp)]
    simp [agg_rules, mem_ite_single, List.mem_append]
  · rw [generate_feedback, mem_fb_default (by simp)]
    simp [agg_rules, mem_ite_single, List.mem_append]
  · rw [generate_feedback, mem_fb_default (by simp)]
    simp [agg_rules, mem_ite_single, List.mem_append]
  · rw [generate_feedback, mem_fb_default (by simp)]
    simp [agg_rules, mem_ite_single, List.mem_append]
  · rw [generate_feedback, mem_fb_default (by simp)]
    simp [agg_rules, mem_ite_single, List.mem_append]
  · rw [generate_feedback, self_mem_fb_default hnot]
    simp [agg_rules, List.append_eq_nil, ite_single_eq_nil]

end SpeechCoach
